import Mathlib

/-!
Shallow embedding of the plex-scripts repository (src/plex_export.py and
src/plex_get.py) for verification of its specification.

Python values that can be absent are modelled with `Option`; `getattr(x, f, d)`
becomes `Option.getD`.  CSV cell values (the heterogeneous values placed in the
`row_data` dict) are modelled by the inductive type `Cell`, which includes a
`null` constructor standing for Python's `None` so that absence of null
propagation is a statable property.  Floating point division and `round(x, 2)`
are modelled over `ℚ` with Python's round-half-to-even tie rule.
-/

namespace Plex

/-- A tag entry (genre, director, role) as exposed by the data source:
the code only reads its `.tag` attribute. -/
structure Tag where
  tag : String
deriving Repr, DecidableEq

/-- A media part; its `size` attribute may be absent (modelled `none`). -/
structure Part where
  size : Option Nat := none
deriving Repr, DecidableEq

/-- A media grouping holding a list of parts. -/
structure Media where
  parts : List Part := []
deriving Repr, DecidableEq

/-- A raw catalog item from the data source.  Every attribute read via
`getattr` in `export_all_libraries_to_csv` is modelled as an `Option` field;
`none` models the attribute being absent. -/
structure CatalogItem where
  title : Option String := none
  type : Option String := none
  year : Option Int := none
  ratingKey : Option Nat := none
  duration : Option Nat := none
  addedAt : Option String := none
  updatedAt : Option String := none
  viewCount : Option Nat := none
  summary : Option String := none
  genres : Option (List Tag) := none
  directors : Option (List Tag) := none
  roles : Option (List Tag) := none
  studio : Option String := none
  contentRating : Option String := none
  rating : Option ℚ := none
  guid : Option String := none
  media : Option (List Media) := none
deriving Repr, DecidableEq

/-- A library entry as produced by `list_all_libraries`: the export loop
reads its `key`, `title` and `type`. -/
structure Library where
  key : Nat
  title : String
  type : String
deriving Repr, DecidableEq

/-- A value stored in one cell of the `row_data` dict: a Python string, int,
float (modelled as a rational) or `None`. -/
inductive Cell where
  | str : String → Cell
  | int : Int → Cell
  | rat : ℚ → Cell
  | null : Cell
deriving Repr, DecidableEq

/-- Python `s.replace(c, r)` for a single-character pattern and a
single-character replacement. -/
def replaceChar (s : String) (c r : Char) : String :=
  ⟨s.data.map (fun x => if x = c then r else x)⟩

/-- Python `s.replace(c, "")` for a single-character pattern: every occurrence
of `c` is deleted. -/
def removeChar (s : String) (c : Char) : String :=
  ⟨s.data.filter (fun x => x ≠ c)⟩

/-- Python `", ".join(tag for ...)`. -/
def joinTags (l : List Tag) : String :=
  String.intercalate ", " (l.map Tag.tag)

/-- Round-half-to-even on a rational, the tie rule of Python's `round`. -/
def roundHalfEven (q : ℚ) : ℤ :=
  if q - ⌊q⌋ = 1 / 2 then (if Even ⌊q⌋ then ⌊q⌋ else ⌊q⌋ + 1) else round q

/-- Python `round(q, 2)`. -/
def round2 (q : ℚ) : ℚ := (roundHalfEven (q * 100) : ℚ) / 100

/-- The `duration_minutes` cell, from the line
`getattr(item, 'duration', 0) // (1000 * 60) if getattr(item, 'duration', None) else ''`.
Python truthiness: absent (`None`) and `0` both take the `else` branch. -/
def durationCell (item : CatalogItem) : Cell :=
  match item.duration with
  | some d => if d ≠ 0 then Cell.int ((d / (1000 * 60) : Nat) : Int) else Cell.str ""
  | none => Cell.str ""

/-- The `summary` cell, from the line
`getattr(item, 'summary', '').replace('\n', ' ').replace('\r', '') if getattr(item, 'summary', None) else ''`.
A present empty summary is falsy, like an absent one. -/
def summaryCell (item : CatalogItem) : Cell :=
  match item.summary with
  | some s => if s ≠ "" then Cell.str (removeChar (replaceChar s '\n' ' ') '\r') else Cell.str ""
  | none => Cell.str ""

/-- The filtered byte total of the generator expression
`sum(part.size for media in item.media for part in media.parts if hasattr(part, 'size') and part.size)`:
parts whose `size` attribute is absent or falsy (zero) are filtered out. -/
def pythonTotalSize (ms : List Media) : Nat :=
  (ms.map (fun m =>
    (((m.parts.filter (fun p => p.size.getD 0 != 0)).map (fun p => p.size.getD 0)).sum))).sum

/-- The `file_size_mb` cell: initialised to `''`; when
`hasattr(item, 'media') and item.media` is truthy the filtered byte total is
computed and the cell becomes `round(total_size / (1024 * 1024), 2) if total_size else ''`. -/
def fileSizeCell (item : CatalogItem) : Cell :=
  match item.media with
  | none => Cell.str ""
  | some ms =>
      if ms.isEmpty then Cell.str ""
      else
        let total := pythonTotalSize ms
        if total ≠ 0 then Cell.rat (round2 ((total : ℚ) / (1024 * 1024))) else Cell.str ""

/-- The fixed-shape output row: the 20 columns of the CSV, in schema order. -/
structure ExportRecord where
  library_key : Cell
  library_name : Cell
  library_type : Cell
  title : Cell
  type : Cell
  year : Cell
  rating_key : Cell
  duration_minutes : Cell
  file_size_mb : Cell
  added_at : Cell
  updated_at : Cell
  view_count : Cell
  summary : Cell
  genres : Cell
  directors : Cell
  actors : Cell
  studio : Cell
  content_rating : Cell
  rating : Cell
  guid : Cell
deriving Repr, DecidableEq

/-- The `row_data` dict built for one item inside `export_all_libraries_to_csv`
(lines 153–187 of src/plex_export.py), including the file-size update performed
just after the dict literal. -/
def makeRow (library : Library) (item : CatalogItem) : ExportRecord :=
  { library_key := Cell.int (library.key : Int)
    library_name := Cell.str library.title
    library_type := Cell.str library.type
    title := Cell.str (item.title.getD "")
    type := Cell.str (item.type.getD "")
    year := match item.year with
      | some y => Cell.int y
      | none => Cell.str ""
    rating_key := match item.ratingKey with
      | some k => Cell.int (k : Int)
      | none => Cell.str ""
    duration_minutes := durationCell item
    file_size_mb := fileSizeCell item
    added_at := Cell.str (item.addedAt.getD "")
    updated_at := Cell.str (item.updatedAt.getD "")
    view_count := Cell.int ((item.viewCount.getD 0 : Nat) : Int)
    summary := summaryCell item
    genres := Cell.str (joinTags (item.genres.getD []))
    directors := Cell.str (joinTags (item.directors.getD []))
    actors := Cell.str (String.intercalate ", " (((item.roles.getD []).map Tag.tag).take 5))
    studio := Cell.str (item.studio.getD "")
    content_rating := Cell.str (item.contentRating.getD "")
    rating := match item.rating with
      | some r => Cell.rat r
      | none => Cell.str ""
    guid := Cell.str (item.guid.getD "") }

/-- The 20 cells of a record, in CSV column order, as handed to the writer. -/
def ExportRecord.cells (r : ExportRecord) : List Cell :=
  [r.library_key, r.library_name, r.library_type, r.title, r.type, r.year,
   r.rating_key, r.duration_minutes, r.file_size_mb, r.added_at, r.updated_at,
   r.view_count, r.summary, r.genres, r.directors, r.actors, r.studio,
   r.content_rating, r.rating, r.guid]

/-- The CSV column names, in the fixed schema order (lines 114–135). -/
def fieldnames : List String :=
  ["library_key", "library_name", "library_type", "title", "type", "year",
   "rating_key", "duration_minutes", "file_size_mb", "added_at", "updated_at",
   "view_count", "summary", "genres", "directors", "actors", "studio",
   "content_rating", "rating", "guid"]

/-- The CSV file produced by a run: the header row followed by the data rows
written for successfully processed items. -/
structure CsvFile where
  header : List String
  rows : List ExportRecord
deriving Repr, DecidableEq

/-- The inner per-item loop of `export_all_libraries_to_csv` (lines 150–199).
`extract` models building `row_data` for one item, which the source wraps in
`try`/`except`: `.error` models a raised exception.  On success the row is
written and both the per-library and the total counter are incremented; on
failure the item is skipped and the loop continues with the next item.
Arguments: remaining items, rows written so far, `library_items`, `total_items`. -/
def processItems (extract : CatalogItem → Except String ExportRecord) :
    List CatalogItem → List ExportRecord → Nat → Nat →
      List ExportRecord × Nat × Nat
  | [], written, library_items, total_items => (written, library_items, total_items)
  | item :: rest, written, library_items, total_items =>
    match extract item with
    | .ok row => processItems extract rest (written ++ [row]) (library_items + 1) (total_items + 1)
    | .error _ => processItems extract rest written library_items total_items

/-- One iteration of the outer per-library loop: fetching the library's items
is wrapped in `try`/`except`, so a library-level failure leaves the
accumulated rows and total counter unchanged and the run continues. -/
def processLibrary (get_library_items : Library → Except String (List CatalogItem))
    (extract : Library → CatalogItem → Except String ExportRecord)
    (acc : List ExportRecord × Nat) (library : Library) :
    List ExportRecord × Nat :=
  match get_library_items library with
  | .error _ => acc
  | .ok its =>
    let r := processItems (extract library) its acc.1 0 acc.2
    (r.1, r.2.2)

/-- The export driver `export_all_libraries_to_csv` (lines 94–211).  The
source calls `list_all_libraries` at line 111, before `open(filename, ...)`
at line 139: when library enumeration raises, the exception propagates out of
the function and no CSV file is created at all, which the model renders as
`.error` carrying no `CsvFile`.  Otherwise the header is written and the
libraries are processed in order; the result is the file's contents and the
final `total_items`. -/
def export_all_libraries_to_csv
    (list_all_libraries : Except String (List Library))
    (get_library_items : Library → Except String (List CatalogItem))
    (extract : Library → CatalogItem → Except String ExportRecord) :
    Except String (CsvFile × Nat) :=
  match list_all_libraries with
  | .error e => .error e
  | .ok libraries =>
    let r := libraries.foldl (processLibrary get_library_items extract) ([], 0)
    .ok (⟨fieldnames, r.1⟩, r.2)

/-- Console listing produced by `print_library_items` in src/plex_export.py
(lines 213–238): the items actually rendered and, when the item count exceeds
`max_items`, the count in the trailing line `... and N more items`. -/
structure ItemListing where
  shown : List CatalogItem
  moreCount : Option Nat
deriving Repr, DecidableEq

/-- `print_library_items(items, max_items=10)` of src/plex_export.py: renders
`items[:max_items]` and appends the elided count exactly when
`len(items) > max_items`. -/
def print_library_items (its : List CatalogItem) (max_items : Nat := 10) : ItemListing :=
  { shown := its.take max_items
    moreCount := if its.length > max_items then some (its.length - max_items) else none }

/-- An item dict produced by `get_library_items_by_key`/`_by_name` in
src/plex_get.py: `title` and a `year` already rendered to a string
(missing years become "N/A" upstream). -/
structure ItemDict where
  title : String
  year : String
deriving Repr, DecidableEq

/-- `PlexService.print_library_items` of src/plex_get.py (lines 182–213): the
`table_data` it renders — a header row followed by one row per item, every
item included, with no cap and no elision line. -/
def PlexService.print_library_items (its : List ItemDict) : List (List String) :=
  [["#", "Title", "Year"]] ++
    its.enum.map (fun p => [toString (p.1 + 1), p.2.title, p.2.year])

/-- What the `items` click command does after parsing: print one of the two
error messages and return, or reach the data source by key or by name.
`fallthrough` models falling off the end of the function body (no message,
no data-source call); it is unreachable. -/
inductive ItemsAction where
  | errorMustSpecify
  | errorNotBoth
  | callByKey (key : Int)
  | callByName (name : String)
  | fallthrough
deriving Repr, DecidableEq

/-- Python truthiness of the click `--library-key` value: `None` (flag not
given) and `0` are falsy. -/
def truthyInt : Option Int → Bool
  | none => false
  | some k => k != 0

/-- Python truthiness of the click `--library-name` value: `None` (flag not
given) and the empty string are falsy. -/
def truthyStr : Option String → Bool
  | none => false
  | some s => s != ""

/-- The body of the `items` command (src/plex_get.py lines 233–262): the two
guard checks use Python truthiness of the option values, then dispatch is
`if library_key: ... elif library_name: ...`. -/
def items (library_key : Option Int) (library_name : Option String) : ItemsAction :=
  if !truthyStr library_name && !truthyInt library_key then .errorMustSpecify
  else if truthyStr library_name && truthyInt library_key then .errorNotBoth
  else if truthyInt library_key then .callByKey (library_key.getD 0)
  else if truthyStr library_name then .callByName (library_name.getD "")
  else .fallthrough

/-- Total bytes of an item as the specification describes it: the size of
every part across every media grouping, an absent or zero size contributing 0. -/
def itemTotalBytes (item : CatalogItem) : Nat :=
  ((item.media.getD []).map (fun m => (m.parts.map (fun p => p.size.getD 0)).sum)).sum

/-- A concrete library used for concrete evaluations. -/
def lib0 : Library := ⟨1, "Movies", "movie"⟩

/-- A concrete extraction that fails on items carrying a title and succeeds on
the rest, exercising the per-item try/except. -/
def failingExtract : CatalogItem → Except String ExportRecord := fun i =>
  match i.title with
  | some _ => .error "boom"
  | none => .ok (makeRow lib0 i)

/-- A concrete three-item library whose middle item makes `failingExtract`
fail. -/
def threeItems : List CatalogItem := [{}, { title := some "bad" }, {}]

/-- A concrete roles list of six entries, one more than the actors cap. -/
def sixRoles : List Tag := [⟨"A"⟩, ⟨"B"⟩, ⟨"C"⟩, ⟨"D"⟩, ⟨"E"⟩, ⟨"F"⟩]

/-- A concrete eleven-entry item listing, one more than the default cap. -/
def elevenItems : List ItemDict := List.replicate 11 ⟨"T", "2020"⟩

/-- A concrete twelve-entry catalog listing. -/
def twelveCatalogItems : List CatalogItem := List.replicate 12 {}

end Plex

namespace Plex

theorem filter_size_sum (ps : List Plex.Part) :
    ((ps.filter (fun p => p.size.getD 0 != 0)).map (fun p => p.size.getD 0)).sum
      = (ps.map (fun p => p.size.getD 0)).sum := by
  induction ps with
  | nil => rfl
  | cons p ps ih =>
    by_cases h : p.size.getD 0 = 0
    · simp [List.filter_cons, h, ih]
    · simp [List.filter_cons, h, ih]

theorem pythonTotalSize_eq (ms : List Media) :
    pythonTotalSize ms
      = (ms.map (fun m => (m.parts.map (fun p => p.size.getD 0)).sum)).sum := by
  unfold pythonTotalSize
  congr 1
  exact List.map_congr_left (fun m _ => filter_size_sum m.parts)

theorem fileSizeCell_eq (item : CatalogItem) :
    fileSizeCell item =
      if itemTotalBytes item = 0 then Cell.str ""
      else Cell.rat (round2 ((itemTotalBytes item : ℚ) / (1024 * 1024))) := by
  unfold fileSizeCell itemTotalBytes
  cases hm : item.media with
  | none => simp
  | some ms =>
    dsimp only [Option.getD_some]
    by_cases he : ms.isEmpty
    · have : ms = [] := List.isEmpty_iff.mp he
      subst this
      simp
    · rw [if_neg he, pythonTotalSize_eq]
      by_cases h0 : (ms.map (fun m => (m.parts.map (fun p => p.size.getD 0)).sum)).sum = 0
      · simp [h0]
      · simp [h0]

theorem makeRow_file_size_mb (library : Library) (item : CatalogItem) :
    (makeRow library item).file_size_mb = fileSizeCell item := rfl

theorem makeRow_duration_minutes (library : Library) (item : CatalogItem) :
    (makeRow library item).duration_minutes = durationCell item := rfl

theorem makeRow_summary (library : Library) (item : CatalogItem) :
    (makeRow library item).summary = summaryCell item := rfl

theorem makeRow_actors (library : Library) (item : CatalogItem) :
    (makeRow library item).actors
      = Cell.str (String.intercalate ", " (((item.roles.getD []).map Tag.tag).take 5)) := rfl

/-- C1: the exported file_size_mb sums every part size across every media
grouping treating absent or zero sizes as 0, divides by 1024*1024 and rounds
to 2 decimal places; a zero byte total — in particular an item with no media
groupings — yields the empty string instead; the concrete item with two media
groupings of one part each, 1048576 and 2097152 bytes, yields 3.0. -/
theorem file_size_mb_spec (library : Library) (item : CatalogItem) :
    ((makeRow library item).file_size_mb =
      if itemTotalBytes item = 0 then Cell.str ""
      else Cell.rat (round2 ((itemTotalBytes item : ℚ) / (1024 * 1024)))) ∧
    (makeRow library { media := some [⟨[⟨some 1048576⟩]⟩, ⟨[⟨some 2097152⟩]⟩] }).file_size_mb
      = Cell.rat 3 ∧
    (makeRow library ({} : CatalogItem)).file_size_mb = Cell.str "" := by
  refine ⟨(makeRow_file_size_mb library item).trans (fileSizeCell_eq item), ?_, rfl⟩
  rw [makeRow_file_size_mb]
  have h : pythonTotalSize [⟨[⟨some 1048576⟩]⟩, ⟨[⟨some 2097152⟩]⟩] = 3145728 := by decide
  unfold fileSizeCell
  simp only [List.isEmpty, h]
  norm_num [round2, roundHalfEven]

/-- C2: duration_minutes is the duration in milliseconds integer-divided by
60000 when present and non-zero, the empty value when absent or zero, and
duration 125000 ms yields 2 minutes. -/
theorem duration_minutes_spec (library : Library) (item : CatalogItem) :
    (∀ d, item.duration = some d → d ≠ 0 →
        (makeRow library item).duration_minutes = Cell.int ((d / 60000 : Nat) : Int)) ∧
    (item.duration = none ∨ item.duration = some 0 →
        (makeRow library item).duration_minutes = Cell.str "") ∧
    (makeRow library { duration := some 125000 }).duration_minutes = Cell.int 2 := by
  refine ⟨?_, ?_, by rw [makeRow_duration_minutes]; decide⟩
  · intro d hd hne
    rw [makeRow_duration_minutes]
    simp [durationCell, hd, hne]
  · rintro (h | h) <;> rw [makeRow_duration_minutes] <;> simp [durationCell, h]

theorem duration_minutes_spec_witness :
    (makeRow lib0 { duration := some 125000 }).duration_minutes = Cell.int 2 ∧
    (makeRow lib0 ({} : CatalogItem)).duration_minutes = Cell.str "" ∧
    (makeRow lib0 { duration := some 0 }).duration_minutes = Cell.str "" :=
  ⟨(duration_minutes_spec lib0 { duration := some 125000 }).1 125000 rfl (by decide),
   (duration_minutes_spec lib0 {}).2.1 (Or.inl rfl),
   (duration_minutes_spec lib0 { duration := some 0 }).2.1 (Or.inr rfl)⟩

theorem intercalate_nil_eq : String.intercalate ", " ([] : List String) = "" := rfl

theorem durationCell_ne_null (item : CatalogItem) : durationCell item ≠ Cell.null := by
  unfold durationCell
  cases item.duration with
  | none => simp
  | some d => by_cases h : d = 0 <;> simp [h]

theorem summaryCell_ne_null (item : CatalogItem) : summaryCell item ≠ Cell.null := by
  unfold summaryCell
  cases item.summary with
  | none => simp
  | some s => by_cases h : s = "" <;> simp [h]

theorem fileSizeCell_ne_null (item : CatalogItem) : fileSizeCell item ≠ Cell.null := by
  rw [fileSizeCell_eq]
  split <;> simp

/-- C3: every field of the constructed row takes a defined non-null default
(empty string for text fields, 0 for the view counter) when the corresponding
source field is absent, and no None value is placed in any of the 20 cells
handed to the CSV writer. -/
theorem export_defaults_spec (library : Library) (item : CatalogItem) :
    (item.title = none → (makeRow library item).title = Cell.str "") ∧
    (item.type = none → (makeRow library item).type = Cell.str "") ∧
    (item.year = none → (makeRow library item).year = Cell.str "") ∧
    (item.ratingKey = none → (makeRow library item).rating_key = Cell.str "") ∧
    (item.duration = none → (makeRow library item).duration_minutes = Cell.str "") ∧
    (item.media = none → (makeRow library item).file_size_mb = Cell.str "") ∧
    (item.addedAt = none → (makeRow library item).added_at = Cell.str "") ∧
    (item.updatedAt = none → (makeRow library item).updated_at = Cell.str "") ∧
    (item.viewCount = none → (makeRow library item).view_count = Cell.int 0) ∧
    (item.summary = none → (makeRow library item).summary = Cell.str "") ∧
    (item.genres = none → (makeRow library item).genres = Cell.str "") ∧
    (item.directors = none → (makeRow library item).directors = Cell.str "") ∧
    (item.roles = none → (makeRow library item).actors = Cell.str "") ∧
    (item.studio = none → (makeRow library item).studio = Cell.str "") ∧
    (item.contentRating = none → (makeRow library item).content_rating = Cell.str "") ∧
    (item.rating = none → (makeRow library item).rating = Cell.str "") ∧
    (item.guid = none → (makeRow library item).guid = Cell.str "") ∧
    (∀ c ∈ (makeRow library item).cells, c ≠ Cell.null) := by
  refine ⟨?_, ?_, ?_, ?_, ?_, ?_, ?_, ?_, ?_, ?_, ?_, ?_, ?_, ?_, ?_, ?_, ?_, ?_⟩
  · intro h; simp [makeRow, h]
  · intro h; simp [makeRow, h]
  · intro h; simp [makeRow, h]
  · intro h; simp [makeRow, h]
  · intro h; rw [makeRow_duration_minutes]; simp [durationCell, h]
  · intro h; rw [makeRow_file_size_mb]; simp [fileSizeCell, h]
  · intro h; simp [makeRow, h]
  · intro h; simp [makeRow, h]
  · intro h; simp [makeRow, h]
  · intro h; rw [makeRow_summary]; simp [summaryCell, h]
  · intro h; simp [makeRow, h, joinTags, intercalate_nil_eq]
  · intro h; simp [makeRow, h, joinTags, intercalate_nil_eq]
  · intro h; rw [makeRow_actors]; simp [h, intercalate_nil_eq]
  · intro h; simp [makeRow, h]
  · intro h; simp [makeRow, h]
  · intro h; simp [makeRow, h]
  · intro h; simp [makeRow, h]
  · intro c hc
    simp only [ExportRecord.cells, List.mem_cons, List.not_mem_nil, or_false] at hc
    rcases hc with rfl|rfl|rfl|rfl|rfl|rfl|rfl|rfl|rfl|rfl|rfl|rfl|rfl|rfl|rfl|rfl|rfl|rfl|rfl|rfl
    · simp [makeRow]
    · simp [makeRow]
    · simp [makeRow]
    · simp [makeRow]
    · simp [makeRow]
    · simp only [makeRow]; cases item.year <;> simp
    · simp only [makeRow]; cases item.ratingKey <;> simp
    · exact makeRow_duration_minutes library item ▸ durationCell_ne_null item
    · exact makeRow_file_size_mb library item ▸ fileSizeCell_ne_null item
    · simp [makeRow]
    · simp [makeRow]
    · simp [makeRow]
    · exact makeRow_summary library item ▸ summaryCell_ne_null item
    · simp [makeRow]
    · simp [makeRow]
    · simp [makeRow]
    · simp [makeRow]
    · simp [makeRow]
    · simp only [makeRow]; cases item.rating <;> simp
    · simp [makeRow]

theorem export_defaults_spec_witness :
    (makeRow lib0 ({} : CatalogItem)).title = Cell.str "" ∧
    (makeRow lib0 ({} : CatalogItem)).type = Cell.str "" ∧
    (makeRow lib0 ({} : CatalogItem)).year = Cell.str "" ∧
    (makeRow lib0 ({} : CatalogItem)).rating_key = Cell.str "" ∧
    (makeRow lib0 ({} : CatalogItem)).duration_minutes = Cell.str "" ∧
    (makeRow lib0 ({} : CatalogItem)).file_size_mb = Cell.str "" ∧
    (makeRow lib0 ({} : CatalogItem)).added_at = Cell.str "" ∧
    (makeRow lib0 ({} : CatalogItem)).updated_at = Cell.str "" ∧
    (makeRow lib0 ({} : CatalogItem)).view_count = Cell.int 0 ∧
    (makeRow lib0 ({} : CatalogItem)).summary = Cell.str "" ∧
    (makeRow lib0 ({} : CatalogItem)).genres = Cell.str "" ∧
    (makeRow lib0 ({} : CatalogItem)).directors = Cell.str "" ∧
    (makeRow lib0 ({} : CatalogItem)).actors = Cell.str "" ∧
    (makeRow lib0 ({} : CatalogItem)).studio = Cell.str "" ∧
    (makeRow lib0 ({} : CatalogItem)).content_rating = Cell.str "" ∧
    (makeRow lib0 ({} : CatalogItem)).rating = Cell.str "" ∧
    (makeRow lib0 ({} : CatalogItem)).guid = Cell.str "" := by
  obtain ⟨h1, h2, h3, h4, h5, h6, h7, h8, h9, h10, h11, h12, h13, h14, h15, h16, h17, -⟩ :=
    export_defaults_spec lib0 ({} : CatalogItem)
  exact ⟨h1 rfl, h2 rfl, h3 rfl, h4 rfl, h5 rfl, h6 rfl, h7 rfl, h8 rfl, h9 rfl,
    h10 rfl, h11 rfl, h12 rfl, h13 rfl, h14 rfl, h15 rfl, h16 rfl, h17 rfl⟩

theorem processItems_eq (extract : CatalogItem → Except String ExportRecord)
    (its : List CatalogItem) (written : List ExportRecord) (lc tc : Nat) :
    processItems extract its written lc tc =
      (written ++ its.filterMap (fun i => (extract i).toOption),
       lc + (its.filterMap (fun i => (extract i).toOption)).length,
       tc + (its.filterMap (fun i => (extract i).toOption)).length) := by
  induction its generalizing written lc tc with
  | nil => simp [processItems]
  | cons i rest ih =>
    cases h : extract i with
    | ok row =>
      simp only [processItems, h, ih, List.filterMap_cons, Except.toOption,
        List.append_assoc, List.singleton_append, List.length_cons, Prod.mk.injEq]
      exact ⟨trivial, by omega, by omega⟩
    | error err =>
      simp only [processItems, h, ih, List.filterMap_cons, Except.toOption]

theorem export_count_invariant (gets : Library → Except String (List CatalogItem))
    (ex : Library → CatalogItem → Except String ExportRecord) (libs : List Library)
    (acc : List ExportRecord × Nat) (h : acc.2 = acc.1.length) :
    (libs.foldl (processLibrary gets ex) acc).2
      = (libs.foldl (processLibrary gets ex) acc).1.length := by
  induction libs generalizing acc with
  | nil => simpa using h
  | cons l rest ih =>
    apply ih
    unfold processLibrary
    cases hg : gets l with
    | error e => simpa using h
    | ok its => simp [processItems_eq, h]

/-- C4: a failed item extraction is skipped — no row, no counter increment —
and later items of the same library are still processed, so the written rows
are exactly the successful extractions in order and both counters equal their
number; consequently a successful run's final total equals the number of data
rows in the CSV file. -/
theorem item_failure_isolation
    (extract : CatalogItem → Except String ExportRecord) (its : List CatalogItem)
    (libs : List Library) (gets : Library → Except String (List CatalogItem))
    (ex : Library → CatalogItem → Except String ExportRecord)
    (csv : CsvFile) (total : Nat) :
    ((processItems extract its [] 0 0).1 = its.filterMap (fun i => (extract i).toOption) ∧
     (processItems extract its [] 0 0).2.1 = (processItems extract its [] 0 0).1.length ∧
     (processItems extract its [] 0 0).2.2 = (processItems extract its [] 0 0).1.length) ∧
    (export_all_libraries_to_csv (.ok libs) gets ex = .ok (csv, total) →
      total = csv.rows.length) := by
  constructor
  · rw [processItems_eq]
    simp
  · intro hexp
    unfold export_all_libraries_to_csv at hexp
    simp only [Except.ok.injEq, Prod.mk.injEq] at hexp
    obtain ⟨hcsv, htot⟩ := hexp
    have hinv := export_count_invariant gets ex libs ([], 0) rfl
    rw [← htot, ← hcsv]
    exact hinv

theorem item_failure_isolation_witness :
    (processItems failingExtract threeItems [] 0 0).1
        = [makeRow lib0 {}, makeRow lib0 {}] ∧
    (processItems failingExtract threeItems [] 0 0).2.2 = 2 ∧
    (2 : Nat) = (CsvFile.mk fieldnames [makeRow lib0 {}, makeRow lib0 {}]).rows.length := by
  have h := item_failure_isolation failingExtract threeItems [lib0]
      (fun _ => .ok threeItems) (fun _ => failingExtract)
      ⟨fieldnames, [makeRow lib0 {}, makeRow lib0 {}]⟩ 2
  refine ⟨?_, ?_, h.2 rfl⟩
  · rw [h.1.1]; decide
  · rw [h.1.2.2, h.1.1]; decide

/-- C5: when library enumeration fails at the start, the run aborts with that
error before any output: no CSV file exists in the result at all. -/
theorem enumeration_failure_aborts (e : String)
    (gets : Library → Except String (List CatalogItem))
    (ex : Library → CatalogItem → Except String ExportRecord) :
    export_all_libraries_to_csv (.error e) gets ex = .error e := rfl

/-- C6 counterexample: with both flags supplied, key 0 and name "Movies", the
items command performs the by-name data-source call instead of printing an
error and returning. -/
theorem items_both_flags_counterexample :
    items (some 0) (some "Movies") = ItemsAction.callByName "Movies" ∧
    ¬ items (some 0) (some "Movies") = ItemsAction.errorNotBoth ∧
    ¬ items (some 0) (some "Movies") = ItemsAction.errorMustSpecify := by decide

/-- C6 amended: the items command enforces exactly-one on Python-truthy
values: with neither value truthy (flag absent, key 0 or empty name) it prints
the must-specify error and returns without a data-source call; with both
truthy it prints the not-both error without a data-source call; with exactly
one truthy it reaches the data source for that library. -/
theorem items_exactly_one_truthy (k : Option Int) (n : Option String) :
    (truthyInt k = false ∧ truthyStr n = false → items k n = ItemsAction.errorMustSpecify) ∧
    (truthyInt k = true ∧ truthyStr n = true → items k n = ItemsAction.errorNotBoth) ∧
    (truthyInt k = true ∧ truthyStr n = false → items k n = ItemsAction.callByKey (k.getD 0)) ∧
    (truthyInt k = false ∧ truthyStr n = true → items k n = ItemsAction.callByName (n.getD "")) := by
  refine ⟨?_, ?_, ?_, ?_⟩ <;> rintro ⟨h1, h2⟩ <;> simp [items, h1, h2]

theorem items_exactly_one_truthy_witness :
    items none none = ItemsAction.errorMustSpecify ∧
    items (some 3) (some "Movies") = ItemsAction.errorNotBoth ∧
    items (some 3) none = ItemsAction.callByKey 3 ∧
    items none (some "Movies") = ItemsAction.callByName "Movies" :=
  ⟨(items_exactly_one_truthy none none).1 ⟨rfl, rfl⟩,
   (items_exactly_one_truthy (some 3) (some "Movies")).2.1 ⟨by decide, rfl⟩,
   (items_exactly_one_truthy (some 3) none).2.2.1 ⟨by decide, rfl⟩,
   (items_exactly_one_truthy none (some "Movies")).2.2.2 ⟨rfl, by decide⟩⟩

/-- C7: when an item's roles list has more than 5 entries, the rendered actors
field is exactly the first 5 entries' tags, in source order, joined by ", ". -/
theorem actors_cap_spec (library : Library) (item : CatalogItem) (rs : List Tag)
    (hr : item.roles = some rs) (h5 : rs.length > 5) :
    (makeRow library item).actors
        = Cell.str (String.intercalate ", " ((rs.take 5).map Tag.tag)) ∧
    (rs.take 5).length = 5 := by
  constructor
  · rw [makeRow_actors, hr]
    simp [List.map_take]
  · simp [List.length_take]
    omega

theorem actors_cap_spec_witness :
    (makeRow lib0 { roles := some sixRoles }).actors
        = Cell.str (String.intercalate ", " ((sixRoles.take 5).map Tag.tag)) ∧
    (sixRoles.take 5).length = 5 ∧
    (makeRow lib0 { roles := some sixRoles }).actors = Cell.str "A, B, C, D, E" := by
  have h := actors_cap_spec lib0 { roles := some sixRoles } sixRoles rfl (by decide)
  exact ⟨h.1, h.2, by decide⟩

/-- C8 counterexample: the summary "a\rb" is exported as "ab" — the carriage
return is removed, not replaced by a space, which would give "a b". -/
theorem summary_cr_counterexample :
    (makeRow lib0 { summary := some "a\rb" }).summary = Cell.str "ab" ∧
    ¬ (makeRow lib0 { summary := some "a\rb" }).summary = Cell.str "a b" := by decide

/-- C8 amended: a present, non-empty summary is exported with every newline
replaced by a space and every carriage return removed; an absent summary gives
the empty string. -/
theorem summary_clean_spec (library : Library) (item : CatalogItem) :
    (∀ s, item.summary = some s → s ≠ "" →
      (makeRow library item).summary
        = Cell.str ⟨(s.data.map (fun c => if c = '\n' then ' ' else c)).filter (fun c => c ≠ '\r')⟩) ∧
    (item.summary = none → (makeRow library item).summary = Cell.str "") := by
  constructor
  · intro s hs hne
    rw [makeRow_summary]
    unfold summaryCell
    rw [hs]
    dsimp only
    rw [if_pos hne]
    rfl
  · intro h
    rw [makeRow_summary]
    simp [summaryCell, h]

theorem summary_clean_spec_witness :
    (makeRow lib0 { summary := some "x\ny\rz" }).summary = Cell.str "x yz" ∧
    (makeRow lib0 ({} : CatalogItem)).summary = Cell.str "" := by
  have h := summary_clean_spec lib0 { summary := some "x\ny\rz" }
  have h2 := summary_clean_spec lib0 ({} : CatalogItem)
  refine ⟨?_, h2.2 rfl⟩
  rw [h.1 "x\ny\rz" rfl (by decide)]
  decide
/-- C9 counterexample: the plex_get table renderer draws one row per item with
no cap and no elision line: an 11-item listing renders all 11 item rows,
including the 11th, though 11 exceeds the default cap of 10. -/
theorem table_no_cap_counterexample :
    (PlexService.print_library_items elevenItems).length = 12 ∧
    (PlexService.print_library_items elevenItems).getLast? = some ["11", "T", "2020"] := by decide

/-- C9 amended: plex_export's print_library_items caps the rendered items at
max_items (default 10) and appends the elided count exactly when the item
count exceeds the cap; plex_get's PlexService.print_library_items renders
every item, with no cap and no elision line. -/
theorem display_cap_spec (its : List CatalogItem) (itds : List ItemDict) (m : Nat) :
    ((print_library_items its m).shown = its.take m) ∧
    (its.length ≤ m → (print_library_items its m).shown = its ∧
        (print_library_items its m).moreCount = none) ∧
    (its.length > m → (print_library_items its m).shown.length = m ∧
        (print_library_items its m).moreCount = some (its.length - m)) ∧
    (print_library_items its = print_library_items its 10) ∧
    ((PlexService.print_library_items itds).length = itds.length + 1) := by
  refine ⟨rfl, ?_, ?_, rfl, ?_⟩
  · intro h
    refine ⟨?_, ?_⟩
    · simp [print_library_items, List.take_of_length_le h]
    · simp [print_library_items]
      omega
  · intro h
    refine ⟨?_, ?_⟩
    · simp [print_library_items, List.length_take]
      omega
    · simp [print_library_items, h]
  · simp [PlexService.print_library_items]

theorem display_cap_spec_witness :
    (print_library_items twelveCatalogItems 12).shown = twelveCatalogItems ∧
    (print_library_items twelveCatalogItems 12).moreCount = none ∧
    (print_library_items twelveCatalogItems 10).shown.length = 10 ∧
    (print_library_items twelveCatalogItems 10).moreCount = some 2 ∧
    (PlexService.print_library_items elevenItems).length = 12 := by
  have h12 := (display_cap_spec twelveCatalogItems elevenItems 12).2.1 (by decide)
  have h10 := (display_cap_spec twelveCatalogItems elevenItems 10).2.2.1 (by decide)
  have hg := (display_cap_spec twelveCatalogItems elevenItems 10).2.2.2.2
  exact ⟨h12.1, h12.2, h10.1, h10.2, hg⟩

/-- C10: supplying --library-key 0 with no --library-name takes the
must-specify error path, exactly as if no flag had been supplied, with no
data-source call. -/
theorem items_key_zero_spec :
    items (some 0) none = ItemsAction.errorMustSpecify ∧
    items (some 0) none = items none none := by decide

end Plex
